import Mathlib

/-!
Verification of the dataset-preparation and command-line utilities of
image-classifier-PyTorch (`utility_fs_train.py`), as a shallow embedding.

Python dictionaries built with string keys are embedded as association
lists (`List (String × _)`) so that key sets and insertion order are
observable; fallible operations (dictionary subscripts, dataset
construction on a missing directory) are embedded in `Except String`.
Floating-point constants of the source are embedded as exact rationals.
-/

namespace ImageClassifier

/-! Transform pipelines: embedding of `data_transforms` (source lines 102-136). -/

/-- One step of a torchvision transform pipeline, as configured by the
source.  Only the configuration (constructor and parameters) is embedded;
the image operation itself is an external collaborator. -/
inductive Transform where
  | randomRotation (degrees : ℕ)
  | randomResizedCrop (size : ℕ)
  | randomHorizontalFlip (p : ℚ)
  | toTensor
  | resize (size : ℕ)
  | centerCrop (size : ℕ)
  | normalize (mean std : List ℚ)
deriving DecidableEq

/-- Whether a transform step is one of the randomized augmentation steps. -/
def Transform.isRandom : Transform → Bool
  | .randomRotation _ => true
  | .randomResizedCrop _ => true
  | .randomHorizontalFlip _ => true
  | _ => false

/-- Embedding of `data_transforms` (source lines 102-136): the dictionary of transform
pipelines for the training, validation, and testing sets, with the keys in
insertion order.  `RandomHorizontalFlip()` is called with its default flip
probability 1/2. -/
def data_transforms : List (String × List Transform) :=
  [("train", [Transform.randomRotation 30,
              Transform.randomResizedCrop 224,
              Transform.randomHorizontalFlip (1/2),
              Transform.toTensor,
              Transform.normalize [0.485, 0.456, 0.406] [0.229, 0.224, 0.225]]),
   ("valid", [Transform.resize 256,
              Transform.centerCrop 224,
              Transform.toTensor,
              Transform.normalize [0.485, 0.456, 0.406] [0.229, 0.224, 0.225]]),
   ("test", [Transform.resize 256,
             Transform.centerCrop 224,
             Transform.toTensor,
             Transform.normalize [0.485, 0.456, 0.406] [0.229, 0.224, 0.225]])]

/-! Path resolution: embedding of `data_subdirs` (source lines 85-99). -/

/-- Embedding of `data_subdirs` (source lines 85-99): pure string concatenation of the
root path with the three fixed suffixes, no filesystem access. -/
def data_subdirs (data_dir : String) : List (String × String) :=
  [("train", data_dir ++ "train/"),
   ("valid", data_dir ++ "valid/"),
   ("test", data_dir ++ "test/")]

/-! Datasets and loaders: embedding of `data_loaders` (source lines 139-185). -/

/-- An abstract filesystem: each directory path maps to its listing, a list
of class subfolders each holding a list of image file names. -/
structure FileSystem where
  dirs : List (String × List (String × List String))

/-- A labeled image-folder dataset handle. -/
structure LabeledDataset where
  root : String
  classes : List String
  class_to_idx : List (String × ℕ)
  samples : List (String × ℕ)
  transform : List Transform
deriving DecidableEq

/-- Modelled from the spec: the external `torchvision.datasets.ImageFolder`
constructor (an out-of-scope collaborator whose code is not part of this
repository).  Per spec section 4.4 it scans the split directory for one
subfolder per class label, assigns each class the dense index given by the
directory enumeration order, associates every image file beneath a class
folder with that class, and fails on a missing or empty split directory. -/
def imageFolder (fs : FileSystem) (root : String) (t : List Transform) :
    Except String LabeledDataset :=
  match fs.dirs.lookup root with
  | none => Except.error ("directory not found: " ++ root)
  | some listing =>
    if listing = [] then Except.error ("no class folders found in: " ++ root)
    else
      let classes := listing.map Prod.fst
      Except.ok
        { root := root
          classes := classes
          class_to_idx := classes.zip (List.range classes.length)
          samples := (listing.zip (List.range listing.length)).map
            (fun c => c.1.2.map (fun f => (root ++ c.1.1 ++ "/" ++ f, c.2))) |>.flatten
          transform := t }

/-- A `torch.utils.data.DataLoader` handle: the dataset it wraps and its
batching configuration. -/
structure BatchIterator where
  dataset : LabeledDataset
  batch_size : ℕ
  shuffle : Bool
deriving DecidableEq

/-- Embedding of `data_loaders` (source lines 139-185).  The three datasets are
constructed first, in order train, valid, test (lines 151-164); the
class-to-index map is read from the training dataset (line 168); then the
three loaders are built (lines 171-183).  The source passes
`datasets_dict['train']` as the dataset of the `'valid'` and `'test'`
loaders (lines 176-182), which this embedding reproduces. -/
def data_loaders (fs : FileSystem) (subdirs_dict : List (String × String))
    (transforms_dict : List (String × List Transform)) :
    Except String (List (String × BatchIterator) × List (String × ℕ)) :=
  match subdirs_dict.lookup "train", transforms_dict.lookup "train" with
  | some pTrain, some tTrain =>
    match imageFolder fs pTrain tTrain with
    | Except.error e => Except.error e
    | Except.ok dsTrain =>
      match subdirs_dict.lookup "valid", transforms_dict.lookup "valid" with
      | some pValid, some tValid =>
        match imageFolder fs pValid tValid with
        | Except.error e => Except.error e
        | Except.ok _dsValid =>
          match subdirs_dict.lookup "test", transforms_dict.lookup "test" with
          | some pTest, some tTest =>
            match imageFolder fs pTest tTest with
            | Except.error e => Except.error e
            | Except.ok _dsTest =>
              Except.ok
                ([("train", ⟨dsTrain, 32, true⟩),
                  ("valid", ⟨dsTrain, 32, true⟩),
                  ("test", ⟨dsTrain, 32, true⟩)],
                 dsTrain.class_to_idx)
          | _, _ => Except.error "KeyError: test"
      | _, _ => Except.error "KeyError: valid"
  | _, _ => Except.error "KeyError: train"

/-! Command-line arguments: embedding of `get_input_args` (source lines 13-63). -/

/-- The parsed configuration produced by `get_input_args`: one field per
`add_argument` call, typed as declared in the source.  Floats are embedded
as exact rationals. -/
structure ParsedConfig where
  data_dir : String
  arch : String
  save_dir : Option String
  learning_rate : ℚ
  hidden_units : ℤ
  epochs : ℤ
  gpu : Bool
deriving DecidableEq

/-- The configuration before any option token is applied: exactly the
`default=` values of the seven `add_argument` calls (source lines 41-61). -/
def defaultConfig (d : String) : ParsedConfig :=
  { data_dir := d
    arch := "vgg11"
    save_dir := none
    learning_rate := 0.001
    hidden_units := 512
    epochs := 5
    gpu := true }

/-- Modelled from the spec: Python's `bool` type coercion as used by
`argparse` for the `--gpu` option (source line 60) — any non-empty string
is truthy, the empty string is falsy. -/
def pyBool (s : String) : Bool := s != ""

/-- Modelled from the spec: Python's `float` coercion applied by `argparse`
to the `--learning_rate` value (source line 51), as a simple decimal
parser over exact rationals; an unparseable token is a usage error. -/
def parseDecimalNonneg (s : String) : Option ℚ :=
  match s.splitOn "." with
  | [a] => a.toNat?.map (fun n => (n : ℚ))
  | [a, b] =>
    match a.toNat?, b.toNat? with
    | some n, some f => some ((n : ℚ) + (f : ℚ) / ((10 : ℚ) ^ b.length))
    | _, _ => none
  | _ => none

/-- Modelled from the spec: sign handling for the decimal parser. -/
def parseDecimal (s : String) : Option ℚ :=
  if s.startsWith "-" then (parseDecimalNonneg (s.drop 1)).map Neg.neg
  else parseDecimalNonneg s

/-- Modelled from the spec: the option-processing loop of the
argument-parsing facility, specialized to the option table declared by
`get_input_args` (source lines 44-61).  Each recognized `--name value`
pair updates the configuration, applying the declared type coercion;
an unrecognized token, a missing value, or a failed coercion is a fatal
usage error (`none`). -/
def applyOptions : List String → ParsedConfig → Option ParsedConfig
  | [], cfg => some cfg
  | [_], _ => none
  | a :: v :: rest, cfg =>
    if a = "--arch" then applyOptions rest { cfg with arch := v }
    else if a = "--save_dir" then applyOptions rest { cfg with save_dir := some v }
    else if a = "--learning_rate" then
      match parseDecimal v with
      | some r => applyOptions rest { cfg with learning_rate := r }
      | none => none
    else if a = "--hidden_units" then
      match v.toInt? with
      | some n => applyOptions rest { cfg with hidden_units := n }
      | none => none
    else if a = "--epochs" then
      match v.toInt? with
      | some n => applyOptions rest { cfg with epochs := n }
      | none => none
    else if a = "--gpu" then applyOptions rest { cfg with gpu := pyBool v }
    else none

/-- Whether a token looks like an option name (starts with `--`). -/
def looksLikeOption (s : String) : Bool := s.data.take 2 == ['-', '-']

/-- Embedding of `get_input_args` (source lines 13-63) applied to a command-line token
list: the required positional `data_dir` comes first (a leading option-like
token means the positional is missing, a fatal usage error), and the
remaining tokens are processed against the declared option table starting
from the declared defaults. -/
def get_input_args : List String → Option ParsedConfig
  | [] => none
  | d :: rest =>
    if looksLikeOption d then none else applyOptions rest (defaultConfig d)

/-! Printing the configuration: embedding of `print_input_args` (source lines 66-82). -/

/-- Python's `str()` of a boolean. -/
def pyStrBool : Bool → String
  | true => "True"
  | false => "False"

/-- Python's `str()` of an optional string (`None` when absent). -/
def pyStrOption : Option String → String
  | none => "None"
  | some s => s

/-- Python's `str()` of an integer. -/
def pyStrInt (n : ℤ) : String := toString n

/-- Modelled from the spec: a rendering of the learning-rate number (the
source delegates to Python's float formatting, an external facility; only
the line labels matter to the properties proved here). -/
def pyStrRat (q : ℚ) : String := toString q

/-- One field line of the printed summary: the source passes the literal
`"\n    label = "` followed by the field value to `print`, which inserts a
single separating space before the value and one after it. -/
def printLine (label value : String) : String :=
  ("    " ++ label ++ " = ") ++ (" " ++ value ++ " ")

/-- Embedding of `print_input_args` (source lines 66-82): the lines written to standard
output, in order.  The operation only produces this output and returns no
value.  The leading empty line comes from the initial `"\n"`, and the
final `" "` line from the trailing `"\n"` argument followed by `print`'s
terminating newline. -/
def print_input_args (a : ParsedConfig) : List String :=
  ["",
   "Command line arguments: ",
   printLine "dir" a.data_dir,
   printLine "arch" a.arch,
   printLine "save_dir" (pyStrOption a.save_dir),
   printLine "learning_rate" (pyStrRat a.learning_rate),
   printLine "hidden_units" (pyStrInt a.hidden_units),
   printLine "epochs" (pyStrInt a.epochs),
   printLine "gpu" (pyStrBool a.gpu),
   " "]

/-- The names of the seven configuration fields, in declaration order. -/
def fieldNames : List String :=
  ["data_dir", "arch", "save_dir", "learning_rate", "hidden_units", "epochs", "gpu"]

/-- Predicate: `line` is an output line labeled `n`: after the source's fixed
four-space indentation it starts with `n` followed by the separator. -/
def linePrefixed (n line : String) : Prop :=
  ("    " ++ n ++ " = ").data <+: line.data

instance (n line : String) : Decidable (linePrefixed n line) := by
  unfold linePrefixed
  infer_instance

/-! Concrete fixtures used by witnesses and counterexamples. -/

/-- A small concrete filesystem with all three split directories present,
two classes each. -/
def exampleFS : FileSystem :=
  ⟨[("flowers/train/", [("daisy", ["d1.jpg", "d2.jpg"]), ("rose", ["r1.jpg"])]),
    ("flowers/valid/", [("daisy", ["d3.jpg"]), ("rose", ["r2.jpg"])]),
    ("flowers/test/", [("daisy", ["d4.jpg"]), ("rose", ["r3.jpg"])])]⟩

/-- The successful result of `data_loaders` on `exampleFS`. -/
def exampleOut : List (String × BatchIterator) × List (String × ℕ) :=
  (data_loaders exampleFS (data_subdirs "flowers/") data_transforms).toOption.getD ([], [])

/-- A filesystem whose `valid` split directory is missing. -/
def brokenFS : FileSystem :=
  ⟨[("flowers/train/", [("daisy", ["d1.jpg"])]),
    ("flowers/test/", [("daisy", ["d4.jpg"])])]⟩

/-- The training transform pipeline, as stored in `data_transforms`. -/
def trainTf : List Transform := (data_transforms.lookup "train").getD []

/-- The validation transform pipeline, as stored in `data_transforms`. -/
def validTf : List Transform := (data_transforms.lookup "valid").getD []

/-- The testing transform pipeline, as stored in `data_transforms`. -/
def testTf : List Transform := (data_transforms.lookup "test").getD []

/-- The training dataset built over `brokenFS`. -/
def brokenTrainDS : LabeledDataset :=
  (imageFolder brokenFS "flowers/train/" trainTf).toOption.getD ⟨"", [], [], [], []⟩

/-! Theorems. -/

/-- Claim C2: for every string `d`, `data_subdirs d` is the dictionary with
exactly the three keys `train`, `valid`, `test`, whose values are
`d ++ "train/"`, `d ++ "valid/"`, `d ++ "test/"`, by pure string
concatenation; a root without a trailing separator yields a malformed but
not rejected path, e.g. `"flowerstrain/"` for root `"flowers"`. -/
theorem data_subdirs_spec :
    (∀ d : String, data_subdirs d =
      [("train", d ++ "train/"), ("valid", d ++ "valid/"), ("test", d ++ "test/")]) ∧
    data_subdirs "flowers" =
      [("train", "flowerstrain/"), ("valid", "flowersvalid/"), ("test", "flowerstest/")] :=
  ⟨fun _ => rfl, rfl⟩

/-- Claim C3: the training pipeline is exactly rotation (30), resized crop
(224), horizontal flip, to-tensor, normalize, in that order; the validation
and test pipelines are identical to each other and are exactly resize
(256), center crop (224), to-tensor, normalize, with no randomized step. -/
theorem data_transforms_pipelines :
    data_transforms.lookup "train" =
      some [Transform.randomRotation 30,
            Transform.randomResizedCrop 224,
            Transform.randomHorizontalFlip (1/2),
            Transform.toTensor,
            Transform.normalize [0.485, 0.456, 0.406] [0.229, 0.224, 0.225]] ∧
    data_transforms.lookup "valid" = data_transforms.lookup "test" ∧
    data_transforms.lookup "valid" =
      some [Transform.resize 256,
            Transform.centerCrop 224,
            Transform.toTensor,
            Transform.normalize [0.485, 0.456, 0.406] [0.229, 0.224, 0.225]] ∧
    ([Transform.resize 256,
      Transform.centerCrop 224,
      Transform.toTensor,
      Transform.normalize [0.485, 0.456, 0.406] [0.229, 0.224, 0.225]]).all
        (fun t => !t.isRandom) = true :=
  ⟨rfl, rfl, rfl, rfl⟩

/-- Claim C7: in all three pipelines of `data_transforms` the final step is
normalization with per-channel mean (0.485, 0.456, 0.406) and standard
deviation (0.229, 0.224, 0.225), and these constants are the exact
rationals 97/200, 57/125, 203/500 and 229/1000, 28/125, 9/40. -/
theorem normalize_imagenet_constants :
    (data_transforms.lookup "train").map List.getLast? =
      some (some (Transform.normalize [0.485, 0.456, 0.406] [0.229, 0.224, 0.225])) ∧
    (data_transforms.lookup "valid").map List.getLast? =
      some (some (Transform.normalize [0.485, 0.456, 0.406] [0.229, 0.224, 0.225])) ∧
    (data_transforms.lookup "test").map List.getLast? =
      some (some (Transform.normalize [0.485, 0.456, 0.406] [0.229, 0.224, 0.225])) ∧
    ([0.485, 0.456, 0.406] : List ℚ) = [97/200, 57/125, 203/500] ∧
    ([0.229, 0.224, 0.225] : List ℚ) = [229/1000, 28/125, 9/40] := by
  refine ⟨rfl, rfl, rfl, ?_, ?_⟩ <;> norm_num

/-- Claim C1 (recording the source defect): on a filesystem where all
three split directories exist with distinct contents, the `valid` and
`test` loaders returned by `data_loaders` wrap the dataset rooted at the
*training* directory, while the dataset built from the validation
directory itself has a different root. -/
theorem valid_test_loaders_built_from_train_dataset :
    data_loaders exampleFS (data_subdirs "flowers/") data_transforms = Except.ok exampleOut ∧
    (exampleOut.1.lookup "valid").map (fun b => b.dataset.root) = some "flowers/train/" ∧
    (exampleOut.1.lookup "test").map (fun b => b.dataset.root) = some "flowers/train/" ∧
    (imageFolder exampleFS "flowers/valid/" validTf).map (fun ds => ds.root) =
      Except.ok "flowers/valid/" ∧
    "flowers/train/" ≠ "flowers/valid/" :=
  ⟨rfl, rfl, rfl, rfl, by decide⟩

/-- Structure of every successful `data_loaders` result: the training
directory and pipeline are looked up, the training dataset is built from
them, and the result pairs the three loaders (all wrapping the training
dataset, batch size 32, shuffling on) with that dataset's class map. -/
theorem data_loaders_ok_spec (fs : FileSystem) (sd : List (String × String))
    (td : List (String × List Transform))
    (out : List (String × BatchIterator) × List (String × ℕ))
    (h : data_loaders fs sd td = Except.ok out) :
    ∃ pT tT ds, sd.lookup "train" = some pT ∧ td.lookup "train" = some tT ∧
      imageFolder fs pT tT = Except.ok ds ∧
      out = ([("train", ⟨ds, 32, true⟩), ("valid", ⟨ds, 32, true⟩), ("test", ⟨ds, 32, true⟩)],
             ds.class_to_idx) := by
  unfold data_loaders at h
  repeat' split at h
  any_goals exact (Except.noConfusion h)
  rename_i a1 a2 pT tT hpT htT a3 ds hds a4 a5 pV tV hpV htV a6 dsV hdsV a7 a8
    pTe tTe hpTe htTe a9 dsTe hdsTe
  exact ⟨pT, tT, ds, hpT, htT, hds, (by injection h with h2; exact h2.symm)⟩

/-- Claim C8: every successful `data_loaders` result has exactly the three
loaders `train`, `valid`, `test`, each configured with batch size 32 and
shuffling enabled. -/
theorem loaders_batch32_shuffle (fs : FileSystem) (sd : List (String × String))
    (td : List (String × List Transform))
    (out : List (String × BatchIterator) × List (String × ℕ))
    (h : data_loaders fs sd td = Except.ok out) :
    out.1.map Prod.fst = ["train", "valid", "test"] ∧
    ∀ kb ∈ out.1, kb.2.batch_size = 32 ∧ kb.2.shuffle = true := by
  obtain ⟨pT, tT, ds, -, -, -, rfl⟩ := data_loaders_ok_spec fs sd td out h
  refine ⟨rfl, ?_⟩
  intro kb hkb
  simp only [List.mem_cons, List.not_mem_nil, or_false] at hkb
  rcases hkb with rfl | rfl | rfl <;> exact ⟨rfl, rfl⟩

/-- Witness for claim C8 at the concrete filesystem `exampleFS`. -/
theorem loaders_batch32_shuffle_witness :
    data_loaders exampleFS (data_subdirs "flowers/") data_transforms = Except.ok exampleOut ∧
    (exampleOut.1.map Prod.fst = ["train", "valid", "test"] ∧
     ∀ kb ∈ exampleOut.1, kb.2.batch_size = 32 ∧ kb.2.shuffle = true) :=
  ⟨rfl, loaders_batch32_shuffle exampleFS (data_subdirs "flowers/") data_transforms
    exampleOut rfl⟩

/-- Claim C4: the class-to-index map returned by `data_loaders` is derived
from the training split only: its keys are exactly the class subfolder
names under the training directory, and its values are a permutation of
`0..k-1` for the `k` classes, with no duplicates. -/
theorem class_to_idx_from_train (fs : FileSystem) (sd : List (String × String))
    (td : List (String × List Transform))
    (out : List (String × BatchIterator) × List (String × ℕ))
    (pT : String) (listing : List (String × List String))
    (h : data_loaders fs sd td = Except.ok out)
    (hpT : sd.lookup "train" = some pT)
    (hfs : fs.dirs.lookup pT = some listing)
    (hnd : (listing.map Prod.fst).Nodup) :
    out.2.map Prod.fst = listing.map Prod.fst ∧
    (out.2.map Prod.fst).Nodup ∧
    List.Perm (out.2.map Prod.snd) (List.range listing.length) ∧
    (out.2.map Prod.snd).Nodup := by
  obtain ⟨pT', tT, ds, hpT', htT, hif, rfl⟩ := data_loaders_ok_spec fs sd td out h
  rw [hpT] at hpT'
  injection hpT' with hpe
  subst hpe
  by_cases hemp : listing = []
  · rw [hemp] at hnd hfs ⊢
    simp only [imageFolder, hfs] at hif
    exact (Except.noConfusion hif)
  · simp only [imageFolder, hfs, if_neg hemp] at hif
    injection hif with hds
    subst hds
    have hlen : (listing.map Prod.fst).length ≤ (List.range (listing.map Prod.fst).length).length := by
      simp
    have hfst : ((listing.map Prod.fst).zip
        (List.range (listing.map Prod.fst).length)).map Prod.fst = listing.map Prod.fst :=
      List.map_fst_zip _ _ hlen
    have hsnd : ((listing.map Prod.fst).zip
        (List.range (listing.map Prod.fst).length)).map Prod.snd =
        List.range (listing.map Prod.fst).length :=
      List.map_snd_zip _ _ (le_of_eq (by simp))
    dsimp only
    refine ⟨hfst, ?_, ?_, ?_⟩
    · rw [hfst]; exact hnd
    · rw [hsnd, List.length_map]
    · rw [hsnd]; exact List.nodup_range _

/-- Witness for claim C4 at the concrete filesystem `exampleFS`. -/
theorem class_to_idx_from_train_witness :
    data_loaders exampleFS (data_subdirs "flowers/") data_transforms = Except.ok exampleOut ∧
    (data_subdirs "flowers/").lookup "train" = some "flowers/train/" ∧
    exampleFS.dirs.lookup "flowers/train/" =
      some [("daisy", ["d1.jpg", "d2.jpg"]), ("rose", ["r1.jpg"])] ∧
    (([("daisy", ["d1.jpg", "d2.jpg"]), ("rose", ["r1.jpg"])] :
        List (String × List String)).map Prod.fst).Nodup ∧
    (exampleOut.2.map Prod.fst =
      ([("daisy", ["d1.jpg", "d2.jpg"]), ("rose", ["r1.jpg"])] :
        List (String × List String)).map Prod.fst ∧
     (exampleOut.2.map Prod.fst).Nodup ∧
     List.Perm (exampleOut.2.map Prod.snd) (List.range
       ([("daisy", ["d1.jpg", "d2.jpg"]), ("rose", ["r1.jpg"])] :
         List (String × List String)).length) ∧
     (exampleOut.2.map Prod.snd).Nodup) :=
  ⟨rfl, rfl, rfl, by decide,
   class_to_idx_from_train exampleFS (data_subdirs "flowers/") data_transforms exampleOut
     "flowers/train/" [("daisy", ["d1.jpg", "d2.jpg"]), ("rose", ["r1.jpg"])]
     rfl rfl rfl (by decide)⟩

/-- Claim C10: `data_loaders` constructs the datasets for all three splits
before building any loader, so a failing validation or test dataset makes
the whole call fail with that error. -/
theorem datasets_built_before_loaders (fs : FileSystem) (sd : List (String × String))
    (td : List (String × List Transform)) (pT pV pTe : String)
    (tT tV tTe : List Transform) (dsT : LabeledDataset) (e : String)
    (h1 : sd.lookup "train" = some pT) (h2 : td.lookup "train" = some tT)
    (h3 : imageFolder fs pT tT = Except.ok dsT)
    (h4 : sd.lookup "valid" = some pV) (h5 : td.lookup "valid" = some tV)
    (h6 : sd.lookup "test" = some pTe) (h7 : td.lookup "test" = some tTe) :
    (imageFolder fs pV tV = Except.error e → data_loaders fs sd td = Except.error e) ∧
    (∀ dsV, imageFolder fs pV tV = Except.ok dsV → imageFolder fs pTe tTe = Except.error e →
       data_loaders fs sd td = Except.error e) := by
  constructor
  · intro hv
    unfold data_loaders
    simp only [h1, h2, h3, h4, h5, hv]
  · intro dsV hv ht
    unfold data_loaders
    simp only [h1, h2, h3, h4, h5, h6, h7, hv, ht]

/-- Witness for claim C10 at `brokenFS`, whose `valid` directory is
missing: the whole assembly fails with the dataset-construction error. -/
theorem datasets_built_before_loaders_witness :
    (data_subdirs "flowers/").lookup "train" = some "flowers/train/" ∧
    data_transforms.lookup "train" = some trainTf ∧
    imageFolder brokenFS "flowers/train/" trainTf = Except.ok brokenTrainDS ∧
    (data_subdirs "flowers/").lookup "valid" = some "flowers/valid/" ∧
    data_transforms.lookup "valid" = some validTf ∧
    (data_subdirs "flowers/").lookup "test" = some "flowers/test/" ∧
    data_transforms.lookup "test" = some testTf ∧
    imageFolder brokenFS "flowers/valid/" validTf =
      Except.error ("directory not found: " ++ "flowers/valid/") ∧
    data_loaders brokenFS (data_subdirs "flowers/") data_transforms =
      Except.error ("directory not found: " ++ "flowers/valid/") :=
  ⟨rfl, rfl, rfl, rfl, rfl, rfl, rfl, rfl,
   (datasets_built_before_loaders brokenFS (data_subdirs "flowers/") data_transforms
     "flowers/train/" "flowers/valid/" "flowers/test/" trainTf validTf testTf
     brokenTrainDS ("directory not found: " ++ "flowers/valid/")
     rfl rfl rfl rfl rfl rfl rfl).1 rfl⟩

/-- Option processing never changes the `gpu` field unless a `--gpu` token
is present, and never changes the `hidden_units` field unless a
`--hidden_units` token is present. -/
theorem applyOptions_preserves : ∀ (l : List String) (c c' : ParsedConfig),
    applyOptions l c = some c' →
    ("--gpu" ∉ l → c'.gpu = c.gpu) ∧
    ("--hidden_units" ∉ l → c'.hidden_units = c.hidden_units)
  | [], c, c', h => by
    simp only [applyOptions, Option.some.injEq] at h
    subst h
    exact ⟨fun _ => rfl, fun _ => rfl⟩
  | [a], c, c', h => by
    simp [applyOptions] at h
  | a :: v :: rest, c, c', h => by
    have hg : "--gpu" ∉ a :: v :: rest → "--gpu" ∉ rest := fun hm hr =>
      hm (List.mem_cons_of_mem _ (List.mem_cons_of_mem _ hr))
    have hh : "--hidden_units" ∉ a :: v :: rest → "--hidden_units" ∉ rest := fun hm hr =>
      hm (List.mem_cons_of_mem _ (List.mem_cons_of_mem _ hr))
    simp only [applyOptions] at h
    by_cases h1 : a = "--arch"
    · rw [if_pos h1] at h
      have ih := applyOptions_preserves rest _ _ h
      exact ⟨fun hm => ih.1 (hg hm), fun hm => ih.2 (hh hm)⟩
    rw [if_neg h1] at h
    by_cases h2 : a = "--save_dir"
    · rw [if_pos h2] at h
      have ih := applyOptions_preserves rest _ _ h
      exact ⟨fun hm => ih.1 (hg hm), fun hm => ih.2 (hh hm)⟩
    rw [if_neg h2] at h
    by_cases h3 : a = "--learning_rate"
    · rw [if_pos h3] at h
      cases hp : parseDecimal v with
      | none => rw [hp] at h; exact absurd h (by simp)
      | some r =>
        rw [hp] at h
        have ih := applyOptions_preserves rest _ _ h
        exact ⟨fun hm => ih.1 (hg hm), fun hm => ih.2 (hh hm)⟩
    rw [if_neg h3] at h
    by_cases h4 : a = "--hidden_units"
    · rw [if_pos h4] at h
      cases hp : v.toInt? with
      | none => rw [hp] at h; exact absurd h (by simp)
      | some n =>
        rw [hp] at h
        have ih := applyOptions_preserves rest _ _ h
        refine ⟨fun hm => ih.1 (hg hm), fun hm => absurd ?_ hm⟩
        rw [h4]
        exact List.mem_cons_self _ _
    rw [if_neg h4] at h
    by_cases h5 : a = "--epochs"
    · rw [if_pos h5] at h
      cases hp : v.toInt? with
      | none => rw [hp] at h; exact absurd h (by simp)
      | some n =>
        rw [hp] at h
        have ih := applyOptions_preserves rest _ _ h
        exact ⟨fun hm => ih.1 (hg hm), fun hm => ih.2 (hh hm)⟩
    rw [if_neg h5] at h
    by_cases h6 : a = "--gpu"
    · rw [if_pos h6] at h
      have ih := applyOptions_preserves rest _ _ h
      refine ⟨fun hm => absurd ?_ hm, fun hm => ih.2 (hh hm)⟩
      rw [h6]
      exact List.mem_cons_self _ _
    rw [if_neg h6] at h
    exact absurd h (by simp)

/-- Claim C5: for the `--gpu` option, any non-empty value token parses to
`true`, and when no `--gpu` token is supplied the parsed `gpu` field is
`true` (the declared default). -/
theorem gpu_flag_semantics (d t : String)
    (hd : looksLikeOption d = false) (ht : t ≠ "") :
    (get_input_args [d, "--gpu", t]).map ParsedConfig.gpu = some true ∧
    ∀ (l : List String) (cfg : ParsedConfig), "--gpu" ∉ l →
      get_input_args (d :: l) = some cfg → cfg.gpu = true := by
  constructor
  · show ((if looksLikeOption d then none
        else applyOptions ["--gpu", t] (defaultConfig d)).map ParsedConfig.gpu) = some true
    rw [hd]
    show (some { defaultConfig d with gpu := pyBool t }).map ParsedConfig.gpu = some true
    show some (pyBool t) = some true
    rw [show pyBool t = true from by simpa [pyBool] using ht]
  · intro l cfg hm h
    rw [show get_input_args (d :: l) =
        (if looksLikeOption d then none else applyOptions l (defaultConfig d)) from rfl,
      hd] at h
    simp only [Bool.false_eq_true, if_false] at h
    exact (applyOptions_preserves l _ _ h).1 hm

/-- Witness for claim C5: `['some_dir', '--gpu', 'False']` parses with
`gpu = true`. -/
theorem gpu_flag_semantics_witness :
    (looksLikeOption "some_dir" = false) ∧ ("False" ≠ "") ∧
    (get_input_args ["some_dir", "--gpu", "False"]).map ParsedConfig.gpu = some true :=
  ⟨by decide, by decide, (gpu_flag_semantics "some_dir" "False" (by decide) (by decide)).1⟩

/-- Claim C6: parsing a command line with a data directory and no
`--hidden_units` option yields `hidden_units = 512`, not the 4096 claimed
by the source's doc comment. -/
theorem hidden_units_default (d : String) (l : List String) (cfg : ParsedConfig)
    (hd : looksLikeOption d = false) (hm : "--hidden_units" ∉ l)
    (h : get_input_args (d :: l) = some cfg) :
    cfg.hidden_units = 512 ∧ (512 : ℤ) ≠ 4096 := by
  rw [show get_input_args (d :: l) =
      (if looksLikeOption d then none else applyOptions l (defaultConfig d)) from rfl,
    hd] at h
  simp only [Bool.false_eq_true, if_false] at h
  exact ⟨(applyOptions_preserves l _ _ h).2 hm, by decide⟩

/-- Witness for claim C6: `['flowers/']` parses with `hidden_units = 512`. -/
theorem hidden_units_default_witness :
    (looksLikeOption "flowers/" = false) ∧ ("--hidden_units" ∉ ([] : List String)) ∧
    get_input_args ["flowers/"] = some (defaultConfig "flowers/") ∧
    ((defaultConfig "flowers/").hidden_units = 512 ∧ (512 : ℤ) ≠ 4096) :=
  ⟨by decide, by simp, rfl,
   hidden_units_default "flowers/" [] (defaultConfig "flowers/") (by decide) (by simp) rfl⟩

/-- A field line built with label `n` is prefixed with `n`. -/
theorem linePrefixed_printLine (n v : String) : linePrefixed n (printLine n v) :=
  ⟨(" " ++ v ++ " ").data, (String.data_append _ _).symm⟩

/-- Claim C9 fails as stated: on a concrete configuration, it is not the
case that every field of the configuration has an output line prefixed
with that field's name — the `data_dir` field's line is labeled `dir`. -/
theorem print_fieldname_lines_counterexample :
    ¬ ∀ n ∈ fieldNames, ∃ line ∈ print_input_args (defaultConfig "flowers/"),
      linePrefixed n line := by
  decide

/-- Claim C9 as amended: `print_input_args` produces, for every
configuration, one output line per configuration field with no field
omitted and the operation only produces output; each field's line is
prefixed with the label used by the source, which is the field's name for
every field except `data_dir`, whose line is labeled `dir`. -/
theorem print_one_line_per_field (a : ParsedConfig) :
    (∃ line ∈ print_input_args a, linePrefixed "dir" line) ∧
    (∃ line ∈ print_input_args a, linePrefixed "arch" line) ∧
    (∃ line ∈ print_input_args a, linePrefixed "save_dir" line) ∧
    (∃ line ∈ print_input_args a, linePrefixed "learning_rate" line) ∧
    (∃ line ∈ print_input_args a, linePrefixed "hidden_units" line) ∧
    (∃ line ∈ print_input_args a, linePrefixed "epochs" line) ∧
    (∃ line ∈ print_input_args a, linePrefixed "gpu" line) := by
  refine ⟨⟨printLine "dir" a.data_dir, ?_, linePrefixed_printLine _ _⟩,
    ⟨printLine "arch" a.arch, ?_, linePrefixed_printLine _ _⟩,
    ⟨printLine "save_dir" (pyStrOption a.save_dir), ?_, linePrefixed_printLine _ _⟩,
    ⟨printLine "learning_rate" (pyStrRat a.learning_rate), ?_, linePrefixed_printLine _ _⟩,
    ⟨printLine "hidden_units" (pyStrInt a.hidden_units), ?_, linePrefixed_printLine _ _⟩,
    ⟨printLine "epochs" (pyStrInt a.epochs), ?_, linePrefixed_printLine _ _⟩,
    ⟨printLine "gpu" (pyStrBool a.gpu), ?_, linePrefixed_printLine _ _⟩⟩ <;>
  simp [print_input_args]

end ImageClassifier
